import Mathlib

/-!
Verification of the LargeEventDashboard GRIB2 radar pipelines.

The embedding models the two Python modules
src/backend/utils/grib_processor.py and src/backend/utils/mrms_processor.py.

Numeric convention: every degree or dBZ quantity of the source is represented
as an exact fixed-point integer in micro-units (1 degree = 1000000), so
center_lon = -121.969814 degrees is the integer -121969814.  Every constant
appearing in the source has at most six decimal places, so this embedding is
exact for all of them, and the arithmetic the cropping code performs
(addition, subtraction, mod 360, comparison, subtracting 360) is closed over
micro-degree integers.  A not-a-number cell of a numpy array is modelled as
none of an Option-valued cell.
-/

namespace LargeEventDashboard

/-- Boolean-mask selection along one axis, as numpy array[mask] performs it:
keep exactly the entries whose mask position is true, in order. -/
def maskFilter {α : Type} : List Bool → List α → List α
  | true :: m, x :: xs => x :: maskFilter m xs
  | false :: m, _ :: xs => maskFilter m xs
  | _, _ => []

/-- Python floor-mod on micro-degree fixed-point values: x % m in Python is
x - m * floor(x / m), which on inputs representable in micro-degrees is the
integer floor-division formula below (mrms_processor.py line 97 computes
center_lon % 360). -/
def pymod (x m : Int) : Int := x - m * (Int.fdiv x m)

/-- Colors and dBZ bin boundaries of grib_processor.create_radar_colormap
(lines 19-47), reproduced verbatim. -/
def create_radar_colormap : List String × List Int :=
  (["#00FFFF", "#00BFFF", "#0000FF", "#00FF00", "#00C800", "#009600",
    "#FFFF00", "#FFD700", "#FFA500", "#FF4500", "#FF0000", "#C80000",
    "#A00000", "#FF00FF", "#9932CC", "#FFFFFF"],
   [-30, -20, -10, 0, 10, 20, 25, 30, 35, 40, 45, 50, 55, 60, 65, 70, 80])

/-- Colors and dBZ bin boundaries of mrms_processor.nexrad_colormap
(lines 128-152), reproduced verbatim. -/
def nexrad_colormap : List String × List Int :=
  (["#646464", "#04e9e7", "#019ff4", "#0300f4", "#02fd02", "#01c501",
    "#008e00", "#fdf802", "#e5bc00", "#fd9500", "#fd0000", "#d40000",
    "#bc0000", "#f800fd", "#9854c6", "#fdfdfd"],
   [-5, 0, 5, 10, 15, 20, 25, 30, 35, 40, 45, 50, 55, 60, 65, 70, 80])

/-- One run of grib_processor.process_grib2_file, abstracted to the control
flow that decides the fate of the temporary decompressed file (lines 59-192):
the try block creates a sibling temporary file exactly when the input path
ends in .gz (lines 61-67); if any exception is raised after that point the
except branch (lines 188-192) prints a diagnostic and returns False without
removing the file; on the success path the file is removed (lines 183-184)
and True is returned.  The result pairs the returned boolean with whether the
temporary file still exists when the function returns. -/
structure GribRun where
  input_is_gz : Bool
  raises_after_decompress : Bool

def process_grib2_file_run (r : GribRun) : Bool × Bool :=
  let temp_created := r.input_is_gz
  if r.raises_after_decompress then
    (false, temp_created)
  else
    (true, false)

/-- The MRMS sentinel-masking assignment data[data <= -990] = np.nan applied
to one cell (mrms_processor.py line 42 and line 74): a not-a-number cell
compares false against the threshold and stays not-a-number; a cell at or
below -990 (that is, -990000000 micro-dBZ) is overwritten with not-a-number;
any other cell is untouched. -/
def mask_sentinel (x : Option Int) : Option Int :=
  match x with
  | none => none
  | some v => if v ≤ -990000000 then none else some v

/-- Sentinel masking of the whole grid as performed by the pygrib backend
load_grib2 (mrms_processor.py line 42). -/
def load_grib2_mask (g : List (List (Option Int))) : List (List (Option Int)) :=
  g.map (List.map mask_sentinel)

/-- Sentinel masking of the whole grid as performed by the xarray fallback
backend (mrms_processor.py line 74, inside the loader the source spells with
a leading underscore). -/
def load_grib2_xarray_mask (g : List (List (Option Int))) : List (List (Option Int)) :=
  g.map (List.map mask_sentinel)

/-- The fixed priority list of known reflectivity variable names scanned by
process_grib2_file (grib_processor.py line 84). -/
def priority_names : List String :=
  ["unknown", "refc", "REFC", "reflectivity", "dBZ", "Reflectivity"]

/-- The known coordinate variable names excluded by the fallback scan
(grib_processor.py line 91). -/
def coord_var_names : List String :=
  ["latitude", "longitude", "lat", "lon", "x", "y", "time"]

/-- Variable resolution of process_grib2_file (grib_processor.py lines
82-96): take the first priority-list name present among the dataset variable
names; otherwise the first variable name that is not a known coordinate name;
otherwise raise ValueError whose message lists all available variable names
(the error payload carries that list). -/
def find_var_name (vars : List String) : Except (List String) String :=
  match priority_names.find? (fun n => vars.contains n) with
  | some n => Except.ok n
  | none =>
    match (vars.filter (fun v => !coord_var_names.contains v)).head? with
    | some v => Except.ok v
    | none => Except.error vars

/-- An n-dimensional numpy array abstracted to its shape and its cell lookup
by multi-index. -/
structure NDGrid where
  shape : List Nat
  val : List Nat → Option Int

/-- The leading-dimension collapse of process_grib2_file (grib_processor.py
lines 117-118): when the decoded array has more than 2 dimensions, replace it
by the slice at leading index 0 if the leading dimension has length 1 and at
the last leading index otherwise; arrays of at most 2 dimensions pass through
unchanged. -/
def collapse_leading (g : NDGrid) : NDGrid :=
  if 2 < g.shape.length then
    { shape := g.shape.tail,
      val := fun ix =>
        g.val ((if g.shape.headD 0 = 1 then 0 else g.shape.headD 0 - 1) :: ix) }
  else g

/-- Box cropping of process_grib2_file for 1-D coordinate vectors
(grib_processor.py lines 136-142): independent inclusive-range masks over the
latitude and longitude vectors, the row mask applied to the reflectivity rows
and the column mask to each surviving row (outer-product selection). -/
def crop_box_1d (refl : List (List (Option Int))) (lat lon : List Int)
    (lat_bounds lon_bounds : Int × Int) :
    List (List (Option Int)) × List Int × List Int :=
  let lat_mask := lat.map (fun x =>
    decide (lat_bounds.1 ≤ x) && decide (x ≤ lat_bounds.2))
  let lon_mask := lon.map (fun x =>
    decide (lon_bounds.1 ≤ x) && decide (x ≤ lon_bounds.2))
  ((maskFilter lat_mask refl).map (maskFilter lon_mask),
   maskFilter lat_mask lat,
   maskFilter lon_mask lon)

/-- Two-dimensional boolean-mask selection array[mask] with mask of the same
shape as the array: numpy returns the selected cells flattened in row-major
order. -/
def select2d {α : Type} (mask : List (List Bool)) (xs : List (List α)) : List α :=
  ((mask.zip xs).map (fun p => maskFilter p.1 p.2)).flatten

/-- Box cropping of process_grib2_file for 2-D coordinate arrays
(grib_processor.py lines 143-148): the elementwise conjunction of the
latitude and longitude range masks is applied as a single boolean selection
to the reflectivity, latitude and longitude arrays, each yielding a
flattened 1-D result. -/
def crop_box_2d (refl : List (List (Option Int))) (lat lon : List (List Int))
    (lat_bounds lon_bounds : Int × Int) :
    List (Option Int) × List Int × List Int :=
  let mask : List (List Bool) := (lat.zip lon).map (fun rl =>
    (rl.1.zip rl.2).map (fun xy =>
      (decide (lat_bounds.1 ≤ xy.1) && decide (xy.1 ≤ lat_bounds.2)) &&
      (decide (lon_bounds.1 ≤ xy.2) && decide (xy.2 ≤ lon_bounds.2))))
  (select2d mask refl, select2d mask lat, select2d mask lon)

/-- Radius cropping of mrms_processor.crop_region (lines 84-121), in the 2-D
coordinate branch that actually crops (the branch taken for pygrib output):
the latitude window is center plus or minus the radius; the center longitude
is first converted to the 0-360 grid convention with Python mod 360; the row
mask is evaluated on the first column of the latitude grid and the column
mask on the first row of the longitude grid; the three arrays are reduced
with np.ix_ row and column selection; finally every cropped longitude above
180 has 360 subtracted, returning to the -180..180 convention. -/
def crop_region (data : List (List (Option Int))) (lats lons : List (List Int))
    (center_lat center_lon radius_deg : Int) :
    List (List (Option Int)) × List (List Int) × List (List Int) :=
  let lat_min := center_lat - radius_deg
  let lat_max := center_lat + radius_deg
  let grid_center_lon := pymod center_lon 360000000
  let lon_min := grid_center_lon - radius_deg
  let lon_max := grid_center_lon + radius_deg
  let lat_col := lats.map (fun row => row.headD 0)
  let lon_row := lons.headD []
  let row_mask := lat_col.map (fun x => decide (lat_min ≤ x) && decide (x ≤ lat_max))
  let col_mask := lon_row.map (fun x => decide (lon_min ≤ x) && decide (x ≤ lon_max))
  let data_c := (maskFilter row_mask data).map (maskFilter col_mask)
  let lats_c := (maskFilter row_mask lats).map (maskFilter col_mask)
  let lons_c := (maskFilter row_mask lons).map (maskFilter col_mask)
  (data_c, lats_c,
   lons_c.map (List.map (fun x => if 180000000 < x then x - 360000000 else x)))

/-- The coordinate arrays handed to the plotting section of
process_grib2_file: either a pair of 1-D vectors or a pair of 2-D grids
(the len(lat.shape) == 1 test on lines 139 and 155). -/
inductive CoordArrays where
  | oneD (lat lon : List Int)
  | twoD (lat lon : List (List Int))

/-- What the plotting section passes to pcolormesh. -/
inductive PlottedData where
  | grid (refl : List (List (Option Int))) (lat lon : List Int)
  | flat (refl : List (Option Int)) (lat lon : List Int)
  | fullGrid1 (refl : List (List (Option Int))) (lat lon : List Int)
  | fullGrid2 (refl : List (List (Option Int))) (lat lon : List (List Int))

/-- The pcolormesh call together with the axis limits set afterwards. -/
structure RenderCall where
  plotted : PlottedData
  xlim : Option (Int × Int)
  ylim : Option (Int × Int)

/-- The plotting branch of process_grib2_file (grib_processor.py lines
134-160): only when both lat_bounds and lon_bounds are supplied (a present
tuple is truthy in the Python test on line 134) is the grid cropped and are
the crop-driven axis limits set; otherwise the full grid is plotted, via a
meshgrid expansion when the coordinates are 1-D vectors. -/
def plot_body (refl : List (List (Option Int))) (coords : CoordArrays)
    (lat_bounds lon_bounds : Option (Int × Int)) : RenderCall :=
  match lat_bounds, lon_bounds with
  | some lb, some nb =>
    (match coords with
     | .oneD lat lon =>
       let c := crop_box_1d refl lat lon lb nb
       ⟨.grid c.1 c.2.1 c.2.2, some nb, some lb⟩
     | .twoD lat lon =>
       let c := crop_box_2d refl lat lon lb nb
       ⟨.flat c.1 c.2.1 c.2.2, some nb, some lb⟩)
  | _, _ =>
    (match coords with
     | .oneD lat lon => ⟨.fullGrid1 refl lat lon, none, none⟩
     | .twoD lat lon => ⟨.fullGrid2 refl lat lon, none, none⟩)

/-- Modelled from the spec: mrms_processor.plot_mrms hands the cropped grid
to the plotting and projection libraries, which the spec excludes as external
collaborators and requires to handle an empty grid without raising, so the
renderer is embedded as a total function that reports the shape of the grid
it rendered. -/
def plot_mrms_shape (data : List (List (Option Int))) : Nat × Nat :=
  (data.length, (data.headD []).length)

/-- The crop-then-render tail of mrms_processor.main (lines 264-269), taking
the already decoded grid as input. -/
def mrms_main (data : List (List (Option Int))) (lats lons : List (List Int))
    (center_lat center_lon radius_deg : Int) : Nat × Nat :=
  let c := crop_region data lats lons center_lat center_lon radius_deg
  plot_mrms_shape c.1

/-- Total number of cells of a row-structured grid. -/
def gridSize {α : Type} (xs : List (List α)) : Nat :=
  (xs.map List.length).sum

/- Helper lemmas about boolean-mask selection -/

theorem mem_of_mem_maskFilter {α : Type} {m : List Bool} {xs : List α} {a : α}
    (h : a ∈ maskFilter m xs) : a ∈ xs := by
  induction m generalizing xs with
  | nil => simp [maskFilter] at h
  | cons b m ih =>
    cases xs with
    | nil => cases b <;> simp [maskFilter] at h
    | cons x xs =>
      cases b with
      | true =>
        rw [maskFilter] at h
        rcases List.mem_cons.mp h with h | h
        · exact h ▸ List.mem_cons_self x xs
        · exact List.mem_cons_of_mem x (ih h)
      | false =>
        rw [maskFilter] at h
        exact List.mem_cons_of_mem x (ih h)

theorem maskFilter_length_le {α : Type} (m : List Bool) (xs : List α) :
    (maskFilter m xs).length ≤ xs.length := by
  induction m generalizing xs with
  | nil => simp [maskFilter]
  | cons b m ih =>
    cases xs with
    | nil => cases b <;> simp [maskFilter]
    | cons x xs =>
      cases b with
      | true => simpa [maskFilter] using ih xs
      | false => exact le_trans (ih xs) (by simp [maskFilter])

theorem maskFilter_length_count {α : Type} {m : List Bool} {xs : List α}
    (h : m.length = xs.length) :
    (maskFilter m xs).length = m.count true := by
  induction m generalizing xs with
  | nil => simp [maskFilter]
  | cons b m ih =>
    cases xs with
    | nil => simp at h
    | cons x xs =>
      have h' : m.length = xs.length := by simpa using h
      cases b with
      | true => simp [maskFilter, ih h', List.count_cons]
      | false => simp [maskFilter, ih h', List.count_cons]

theorem count_true_map_eq_filter_length {α : Type} (p : α → Bool) (xs : List α) :
    (xs.map p).count true = (xs.filter p).length := by
  induction xs with
  | nil => simp
  | cons x xs ih =>
    cases hx : p x with
    | true => simp [List.count_cons, List.filter_cons, hx, ih]
    | false => simp [List.count_cons, List.filter_cons, hx, ih]

theorem maskFilter_eq_nil_of_all_false {α : Type} {m : List Bool} {xs : List α}
    (h : ∀ b ∈ m, b = false) : maskFilter m xs = [] := by
  induction m generalizing xs with
  | nil => cases xs <;> rfl
  | cons b m ih =>
    have hb : b = false := h b (List.mem_cons_self b m)
    cases xs with
    | nil => cases b <;> rfl
    | cons x xs =>
      have h' : ∀ c ∈ m, c = false := fun c hc => h c (List.mem_cons_of_mem b hc)
      subst hb
      rw [maskFilter]
      exact ih h'

theorem maskFilter_length {α : Type} (m : List Bool) (xs : List α) :
    (maskFilter m xs).length = (m.take xs.length).count true := by
  induction m generalizing xs with
  | nil => simp [maskFilter]
  | cons b m ih =>
    cases xs with
    | nil => cases b <;> simp [maskFilter]
    | cons x xs =>
      cases b with
      | true => simp [maskFilter, ih, List.count_cons]
      | false => simp [maskFilter, ih, List.count_cons]

theorem select2d_cons {α : Type} (m : List Bool) (ms : List (List Bool))
    (x : List α) (xs : List (List α)) :
    select2d (m :: ms) (x :: xs) = maskFilter m x ++ select2d ms xs := by
  simp [select2d]

theorem select2d_length_eq {α β : Type} (mask : List (List Bool))
    (xs : List (List α)) (ys : List (List β))
    (hlen : xs.length = ys.length)
    (hrow : ∀ p ∈ xs.zip ys, p.1.length = p.2.length) :
    (select2d mask xs).length = (select2d mask ys).length := by
  induction mask generalizing xs ys with
  | nil => simp [select2d]
  | cons m ms ih =>
    cases xs with
    | nil =>
      cases ys with
      | nil => rfl
      | cons y ys => simp at hlen
    | cons x xs =>
      cases ys with
      | nil => simp at hlen
      | cons y ys =>
        have h1 : x.length = y.length := hrow (x, y) (by simp)
        have h2 : ∀ p ∈ xs.zip ys, p.1.length = p.2.length := by
          intro p hp
          exact hrow p (by simp [List.zip_cons_cons, hp])
        rw [select2d_cons, select2d_cons, List.length_append, List.length_append,
          maskFilter_length, maskFilter_length, h1,
          ih xs ys (by simpa using hlen) h2]

theorem gridSize_cons {α : Type} (x : List α) (xs : List (List α)) :
    gridSize (x :: xs) = x.length + gridSize xs := by
  simp [gridSize]

theorem select2d_length_le {α : Type} (mask : List (List Bool))
    (xs : List (List α)) :
    (select2d mask xs).length ≤ gridSize xs := by
  induction mask generalizing xs with
  | nil => simp [select2d]
  | cons m ms ih =>
    cases xs with
    | nil => simp [select2d]
    | cons x xs =>
      rw [select2d_cons, List.length_append, gridSize_cons]
      exact Nat.add_le_add (maskFilter_length_le m x) (ih xs)

theorem gridSize_eq_zero_of_rows_nil {α : Type} {xs : List (List α)}
    (h : ∀ r ∈ xs, r = []) : gridSize xs = 0 := by
  induction xs with
  | nil => rfl
  | cons x xs ih =>
    rw [gridSize_cons, h x (List.mem_cons_self x xs)]
    simpa using ih (fun r hr => h r (List.mem_cons_of_mem x hr))

theorem getD_map_mask_sentinel_row (row : List (Option Int)) (j : Nat) :
    (row.map mask_sentinel).getD j none = mask_sentinel (row.getD j none) := by
  induction row generalizing j with
  | nil => simp [mask_sentinel]
  | cons a t ih =>
    cases j with
    | zero => simp
    | succ j => simpa using ih j

theorem getD_map_mask_sentinel (g : List (List (Option Int))) (i j : Nat) :
    ((load_grib2_mask g).getD i []).getD j none
      = mask_sentinel ((g.getD i []).getD j none) := by
  induction g generalizing i with
  | nil => simp [load_grib2_mask, mask_sentinel]
  | cons r t ih =>
    cases i with
    | zero => simpa [load_grib2_mask] using getD_map_mask_sentinel_row r j
    | succ i => simpa [load_grib2_mask] using ih i

/- Claim theorems -/

/-- Concrete MRMS grid used to exercise crop_region: two latitude rows at 37
and 38 degrees and two longitude columns at 240 and 250 degrees in the 0-360
convention, in micro-degrees. -/
def c1_data : List (List (Option Int)) := [[some 10, some 20], [some 30, some 40]]

def c1_lats : List (List Int) := [[37000000, 37000000], [38000000, 38000000]]

def c1_lons : List (List Int) := [[240000000, 250000000], [240000000, 250000000]]

/-- C1: crop_region converts the center longitude with Python mod 360 before
masking, so center_lon = -121.969814 degrees becomes 238.030186 degrees; with
radius 3 degrees around that center a grid column at longitude 240 (0-360
form) survives the crop and a column at 250 is dropped, the kept column being
returned as -120; and for any grid whose longitudes are in the 0-360
convention, every value of the returned cropped longitude array lies in
-180..180 because values above 180 have 360 subtracted.  All degree values
are in micro-degrees. -/
theorem crop_region_lon_convention
    (data : List (List (Option Int))) (lats lons : List (List Int))
    (clat clon r : Int)
    (h360 : ∀ row ∈ lons, ∀ x ∈ row, 0 ≤ x ∧ x ≤ 360000000) :
    pymod (-121969814) 360000000 = 238030186
    ∧ crop_region c1_data c1_lats c1_lons 37403147 (-121969814) 3000000
        = ([[some 10], [some 30]], [[37000000], [38000000]],
           [[-120000000], [-120000000]])
    ∧ (∀ row ∈ (crop_region data lats lons clat clon r).2.2, ∀ x ∈ row,
        -180000000 ≤ x ∧ x ≤ 180000000) := by
  refine ⟨by decide, by decide, ?_⟩
  intro row hrow x hx
  simp only [crop_region] at hrow
  rcases List.mem_map.mp hrow with ⟨row₁, hrow₁, rfl⟩
  rcases List.mem_map.mp hrow₁ with ⟨row₂, hrow₂, rfl⟩
  rcases List.mem_map.mp hx with ⟨y, hy, rfl⟩
  have hy₂ : y ∈ row₂ := mem_of_mem_maskFilter hy
  have hrow₂' : row₂ ∈ lons := mem_of_mem_maskFilter hrow₂
  have hb := h360 row₂ hrow₂' y hy₂
  by_cases h : 180000000 < y
  · simp only [if_pos h]
    omega
  · simp only [if_neg h]
    omega

/-- C1 witness: the hypothesis and the bounded-longitude conclusion evaluated
on the concrete grid. -/
theorem crop_region_lon_convention_witness :
    (∀ row ∈ c1_lons, ∀ x ∈ row, (0:Int) ≤ x ∧ x ≤ 360000000)
    ∧ (∀ row ∈ (crop_region c1_data c1_lats c1_lons 37403147 (-121969814)
          3000000).2.2,
        ∀ x ∈ row, (-180000000:Int) ≤ x ∧ x ≤ 180000000) :=
  ⟨by decide,
   (crop_region_lon_convention c1_data c1_lats c1_lons 37403147 (-121969814)
      3000000 (by decide)).2.2⟩

/-- C4: the sentinel-masking step of both decode backends is the same
elementwise operation; it sends every cell whose value is at or below -990
dBZ (-990000000 micro-dBZ) to not-a-number, leaves every cell whose value is
above -990 dBZ unchanged, keeps not-a-number cells not-a-number, and acts
cellwise on the grid. -/
theorem sentinel_mask_spec (g : List (List (Option Int))) (v : Int) :
    load_grib2_mask g = load_grib2_xarray_mask g
    ∧ (v ≤ -990000000 → mask_sentinel (some v) = none)
    ∧ (-990000000 < v → mask_sentinel (some v) = some v)
    ∧ mask_sentinel none = none
    ∧ (∀ i j : Nat, ((load_grib2_mask g).getD i []).getD j none
        = mask_sentinel ((g.getD i []).getD j none)) := by
  refine ⟨rfl, ?_, ?_, rfl, fun i j => getD_map_mask_sentinel g i j⟩
  · intro h
    simp [mask_sentinel, if_pos h]
  · intro h
    simp [mask_sentinel, if_neg (by omega : ¬ v ≤ -990000000)]

/-- C4 witness: the masking evaluated at a value just below and a value just
above the sentinel threshold. -/
theorem sentinel_mask_spec_witness :
    ((-991000000 : Int) ≤ -990000000 ∧ mask_sentinel (some (-991000000)) = none)
    ∧ ((-990000000 : Int) < -989999999
        ∧ mask_sentinel (some (-989999999)) = some (-989999999)) :=
  ⟨⟨by decide, (sentinel_mask_spec [] (-991000000)).2.1 (by decide)⟩,
   ⟨by decide, (sentinel_mask_spec [] (-989999999)).2.2.1 (by decide)⟩⟩

/-- C6: process_grib2_file resolves the reflectivity variable by scanning the
fixed priority list in order and taking the first name present; when none is
present it takes the first dataset variable that is not a known coordinate
name; when the dataset holds only coordinate-named variables it raises an
error carrying the full list of available variable names; and a successfully
resolved name is always an available variable and never a coordinate name. -/
theorem find_var_name_spec (vars : List String) :
    (∀ p, priority_names.find? (fun n => vars.contains n) = some p →
      find_var_name vars = Except.ok p)
    ∧ (priority_names.find? (fun n => vars.contains n) = none →
       ∀ v, (vars.filter (fun v => !coord_var_names.contains v)).head? = some v →
         find_var_name vars = Except.ok v)
    ∧ ((∀ v ∈ vars, v ∈ coord_var_names) → find_var_name vars = Except.error vars)
    ∧ (∀ n, find_var_name vars = Except.ok n → n ∈ vars ∧ n ∉ coord_var_names) := by
  have hdisj : ∀ q ∈ priority_names, q ∉ coord_var_names := by decide
  refine ⟨?_, ?_, ?_, ?_⟩
  · intro p hp
    unfold find_var_name
    rw [hp]
  · intro hnone v hv
    unfold find_var_name
    rw [hnone, hv]
  · intro hall
    have hnone : priority_names.find? (fun n => vars.contains n) = none := by
      cases hfind : priority_names.find? (fun n => vars.contains n) with
      | none => rfl
      | some p =>
        have hc : vars.contains p = true := List.find?_some hfind
        have hpv : p ∈ vars := by
          simpa using hc
        exact absurd (hall p hpv) (hdisj p (List.mem_of_find?_eq_some hfind))
    have hfilter : vars.filter (fun v => !coord_var_names.contains v) = [] := by
      rw [List.filter_eq_nil_iff]
      intro a ha
      simp [hall a ha]
    unfold find_var_name
    rw [hnone, hfilter, List.head?_nil]
  · intro n hn
    unfold find_var_name at hn
    cases hfind : priority_names.find? (fun n => vars.contains n) with
    | some p =>
      rw [hfind] at hn
      have h2 : (Except.ok p : Except (List String) String) = Except.ok n := hn
      injection h2 with h3
      subst h3
      exact ⟨by simpa using (List.find?_some hfind),
             hdisj p (List.mem_of_find?_eq_some hfind)⟩
    | none =>
      rw [hfind] at hn
      cases hhead : (vars.filter (fun v => !coord_var_names.contains v)).head? with
      | some v =>
        rw [hhead] at hn
        have h2 : (Except.ok v : Except (List String) String) = Except.ok n := hn
        injection h2 with h3
        subst h3
        have hvf : v ∈ vars.filter (fun w => !coord_var_names.contains w) :=
          List.mem_of_mem_head? (Option.mem_def.mpr hhead)
        have hm := List.mem_filter.mp hvf
        refine ⟨hm.1, ?_⟩
        have hnc := hm.2
        simp at hnc
        simpa using hnc
      | none =>
        rw [hhead] at hn
        have h2 : (Except.error vars : Except (List String) String) = Except.ok n := hn
        exact absurd h2 (by simp)

/-- C6 witness: a dataset holding only coordinate-named variables produces
the descriptive error carrying all available variable names. -/
theorem find_var_name_spec_witness :
    (∀ v ∈ ["latitude", "longitude", "time"], v ∈ coord_var_names)
    ∧ find_var_name ["latitude", "longitude", "time"]
        = Except.error ["latitude", "longitude", "time"] :=
  ⟨by decide, (find_var_name_spec ["latitude", "longitude", "time"]).2.2.1
    (by decide)⟩

/-- C5: in both fixed reflectivity colormap tables the number of colors is one
less than the number of boundary values, and the boundary list is strictly
increasing. -/
theorem colormap_tables_wellformed :
    (create_radar_colormap.1.length = create_radar_colormap.2.length - 1
      ∧ List.Pairwise (· < ·) create_radar_colormap.2)
    ∧ (nexrad_colormap.1.length = nexrad_colormap.2.length - 1
      ∧ List.Pairwise (· < ·) nexrad_colormap.2) := by
  decide

/-- C2, counterexample: on a gzip-compressed input whose processing raises an
exception after decompression, process_grib2_file returns False with the
temporary decompressed file still existing, so the claim that the temporary
file is removed on every exit path is false at this concrete input. -/
theorem process_grib2_file_temp_leak_cex :
    process_grib2_file_run ⟨true, true⟩ = (false, true) := rfl

/-- C2, amended: the temporary decompressed file is removed by the time
process_grib2_file returns when processing succeeds, but when an exception is
raised after decompression the except branch returns False without removing
it, so the file remains exactly when the input was gzip-compressed and such
an exception occurred. -/
theorem process_grib2_file_temp_cleanup (r : GribRun) :
    (process_grib2_file_run r).2 = (r.input_is_gz && r.raises_after_decompress) := by
  cases r with
  | mk a b => cases a <;> cases b <;> rfl

/-- Concrete 10-sample latitude vector for the box-crop scenario, in
micro-degrees: exactly the four values 30, 32, 35, 40 fall inside [30, 40]. -/
def c7_lat : List Int :=
  [10000000, 20000000, 30000000, 32000000, 35000000, 40000000,
   50000000, 60000000, 70000000, 80000000]

/-- Concrete 10-sample longitude vector: exactly -100, -95, -90 fall inside
[-100, -90]. -/
def c7_lon : List Int :=
  [-120000000, -110000000, -100000000, -95000000, -90000000,
   -80000000, -70000000, -60000000, -50000000, -40000000]

/-- Concrete 10 by 10 reflectivity grid of constant 45.0 dBZ. -/
def c7_refl : List (List (Option Int)) :=
  List.replicate 10 (List.replicate 10 (some 45000000))

/-- C7: box cropping with 1-D coordinate vectors applies the latitude row
mask and the longitude column mask independently as an outer-product
selection, so any 10 by 10 grid whose latitude bound intersects 4 of the 10
latitude samples and whose longitude bound intersects 3 of the 10 longitude
samples crops to a 4 by 3 reflectivity grid with a length-4 latitude vector
and a length-3 longitude vector. -/
theorem crop_box_1d_outer_product
    (refl : List (List (Option Int))) (lat lon : List Int) (lb nb : Int × Int)
    (hr : refl.length = 10) (hl : lat.length = 10) (hn : lon.length = 10)
    (hrows : ∀ row ∈ refl, row.length = 10)
    (h4 : (lat.filter (fun x => decide (lb.1 ≤ x) && decide (x ≤ lb.2))).length = 4)
    (h3 : (lon.filter (fun x => decide (nb.1 ≤ x) && decide (x ≤ nb.2))).length = 3) :
    (crop_box_1d refl lat lon lb nb).1.length = 4
    ∧ (∀ row ∈ (crop_box_1d refl lat lon lb nb).1, row.length = 3)
    ∧ (crop_box_1d refl lat lon lb nb).2.1.length = 4
    ∧ (crop_box_1d refl lat lon lb nb).2.2.length = 3 := by
  have hm1 : (lat.map (fun x => decide (lb.1 ≤ x) && decide (x ≤ lb.2))).count true
      = 4 := by
    rw [count_true_map_eq_filter_length]
    exact h4
  have hm2 : (lon.map (fun x => decide (nb.1 ≤ x) && decide (x ≤ nb.2))).count true
      = 3 := by
    rw [count_true_map_eq_filter_length]
    exact h3
  refine ⟨?_, ?_, ?_, ?_⟩
  · simp only [crop_box_1d]
    rw [List.length_map, maskFilter_length_count (by simp [hl, hr])]
    exact hm1
  · intro row hrow
    simp only [crop_box_1d] at hrow
    rcases List.mem_map.mp hrow with ⟨r, hrm, rfl⟩
    have hrr : r ∈ refl := mem_of_mem_maskFilter hrm
    rw [maskFilter_length_count (by simp [hn, hrows r hrr])]
    exact hm2
  · simp only [crop_box_1d]
    rw [maskFilter_length_count (by simp)]
    exact hm1
  · simp only [crop_box_1d]
    rw [maskFilter_length_count (by simp)]
    exact hm2

/-- C7 witness: the concrete 10 by 10 grid with the bounds [30, 40] and
[-100, -90] of the spec scenario. -/
theorem crop_box_1d_outer_product_witness :
    (c7_lat.filter (fun x =>
        decide ((30000000:Int) ≤ x) && decide (x ≤ 40000000))).length = 4
    ∧ (c7_lon.filter (fun x =>
        decide ((-100000000:Int) ≤ x) && decide (x ≤ -90000000))).length = 3
    ∧ (crop_box_1d c7_refl c7_lat c7_lon (30000000, 40000000)
        (-100000000, -90000000)).1.length = 4
    ∧ (∀ row ∈ (crop_box_1d c7_refl c7_lat c7_lon (30000000, 40000000)
        (-100000000, -90000000)).1, row.length = 3)
    ∧ (crop_box_1d c7_refl c7_lat c7_lon (30000000, 40000000)
        (-100000000, -90000000)).2.1.length = 4
    ∧ (crop_box_1d c7_refl c7_lat c7_lon (30000000, 40000000)
        (-100000000, -90000000)).2.2.length = 3 := by
  have h := crop_box_1d_outer_product c7_refl c7_lat c7_lon
    (30000000, 40000000) (-100000000, -90000000)
    (by decide) (by decide) (by decide) (by decide) (by decide) (by decide)
  exact ⟨by decide, by decide, h.1, h.2.1, h.2.2.1, h.2.2.2⟩

/-- C9 counterexample: a decoded 4-dimensional array (shape 1, 2, 2, 2, for
instance one time step of two vertical levels) is collapsed only once by
process_grib2_file, so the result has 3 dimensions, not 2, refuting the
claim that the collapse step produces a 2-D array for every array of more
than 2 dimensions. -/
theorem collapse_leading_4d_cex :
    (collapse_leading ⟨[1, 2, 2, 2], fun _ => none⟩).shape = [2, 2, 2]
    ∧ (collapse_leading ⟨[1, 2, 2, 2], fun _ => none⟩).shape.length ≠ 2 := by
  exact ⟨rfl, by decide⟩

/-- C9, amended: for a decoded reflectivity array of more than 2 dimensions,
process_grib2_file collapses the leading dimension exactly once, selecting
leading index 0 when the leading dimension has length 1 and the last leading
index otherwise, so a 3-dimensional array becomes 2-D (but a 4-dimensional
array becomes 3-D); arrays of at most 2 dimensions are left unchanged. -/
theorem collapse_leading_spec (g : NDGrid) :
    (2 < g.shape.length →
      (collapse_leading g).shape = g.shape.tail
      ∧ ∀ ix, (collapse_leading g).val ix
          = g.val ((if g.shape.headD 0 = 1 then 0 else g.shape.headD 0 - 1) :: ix))
    ∧ (g.shape.length = 3 → (collapse_leading g).shape.length = 2)
    ∧ (g.shape.length ≤ 2 → collapse_leading g = g) := by
  refine ⟨?_, ?_, ?_⟩
  · intro h
    unfold collapse_leading
    rw [if_pos h]
    exact ⟨rfl, fun ix => rfl⟩
  · intro h3
    unfold collapse_leading
    rw [if_pos (by omega)]
    simp [List.length_tail, h3]
  · intro h
    unfold collapse_leading
    rw [if_neg (by omega)]

/-- C9 witness: a 3-dimensional singleton-leading array collapses to 2
dimensions. -/
theorem collapse_leading_spec_witness :
    ((⟨[1, 2, 2], fun _ => some 0⟩ : NDGrid).shape.length = 3)
    ∧ (collapse_leading ⟨[1, 2, 2], fun _ => some 0⟩).shape.length = 2 :=
  ⟨by decide, (collapse_leading_spec ⟨[1, 2, 2], fun _ => some 0⟩).2.1 (by decide)⟩

/-- C10: the plotting section of process_grib2_file crops and sets
crop-driven axis limits only when both lat_bounds and lon_bounds are
supplied; when exactly one of the two is given and the other is None, the
full uncropped grid is rendered exactly as when neither is given; and when
both are given the axis limits are taken from the bounds. -/
theorem plot_body_requires_both_bounds
    (refl : List (List (Option Int))) (coords : CoordArrays) (lb nb : Int × Int) :
    plot_body refl coords (some lb) none = plot_body refl coords none none
    ∧ plot_body refl coords none (some nb) = plot_body refl coords none none
    ∧ (plot_body refl coords none none).xlim = none
    ∧ (plot_body refl coords none none).ylim = none
    ∧ (plot_body refl coords (some lb) (some nb)).ylim = some lb
    ∧ (plot_body refl coords (some lb) (some nb)).xlim = some nb := by
  cases coords <;> exact ⟨rfl, rfl, rfl, rfl, rfl, rfl⟩

/-- Concrete 2 by 2 grids with 2-D coordinate arrays, every cell inside the
crop bounds. -/
def c8_refl : List (List (Option Int)) := [[some 1, some 2], [some 3, some 4]]

def c8_lat : List (List Int) := [[30000000, 30000000], [31000000, 31000000]]

def c8_lon : List (List Int) := [[-95000000, -94000000], [-95000000, -94000000]]

/-- C8 counterexample: in the 2-D coordinate branch of box cropping, boolean
mask indexing flattens the selection, so cropping a 2 by 2 grid whose cells
all satisfy the bounds yields a 1-D array of length 4 — an extent along its
only axis that exceeds the input extent (2) along every input axis, refuting
the claim that a cropped array extent never exceeds the input extent along
every axis. -/
theorem crop_box_2d_extent_cex :
    (crop_box_2d c8_refl c8_lat c8_lon (0, 90000000) (-180000000, 0)).1.length = 4
    ∧ 2 < (crop_box_2d c8_refl c8_lat c8_lon (0, 90000000) (-180000000, 0)).1.length
    ∧ c8_refl.length = 2
    ∧ (∀ row ∈ c8_refl, row.length = 2) := by
  decide

/-- C8, amended: after every crop step the reflectivity and coordinate
arrays have matching shapes; in the 1-D box branch and in crop_region the
cropped extent along every axis is at most the corresponding input extent;
in the 2-D box branch the three outputs are flattened 1-D arrays of one
common length, which is bounded by the total cell count of the input (but
can exceed a single input axis extent, as the counterexample shows). -/
theorem crop_shapes_match
    (refl : List (List (Option Int))) (lat lon : List Int) (lb nb : Int × Int)
    (refl₂ : List (List (Option Int))) (lat₂ lon₂ : List (List Int))
    (lb₂ nb₂ : Int × Int)
    (data : List (List (Option Int))) (lats lons : List (List Int))
    (clat clon r : Int) (ncols : Nat)
    (h1a : refl.length = lat.length)
    (h1b : ∀ row ∈ refl, row.length = lon.length)
    (h2a : refl₂.length = lat₂.length)
    (h2b : lat₂.length = lon₂.length)
    (h2c : ∀ p ∈ refl₂.zip lat₂, p.1.length = p.2.length)
    (h2d : ∀ p ∈ lat₂.zip lon₂, p.1.length = p.2.length)
    (h3a : data.length = lats.length)
    (h3b : lats.length = lons.length)
    (h3c : ∀ row ∈ data, row.length = ncols)
    (h3d : ∀ row ∈ lats, row.length = ncols)
    (h3e : ∀ row ∈ lons, row.length = ncols) :
    ((crop_box_1d refl lat lon lb nb).1.length
        = (crop_box_1d refl lat lon lb nb).2.1.length
      ∧ (∀ row ∈ (crop_box_1d refl lat lon lb nb).1,
          row.length = (crop_box_1d refl lat lon lb nb).2.2.length)
      ∧ (crop_box_1d refl lat lon lb nb).1.length ≤ refl.length
      ∧ (crop_box_1d refl lat lon lb nb).2.1.length ≤ lat.length
      ∧ (crop_box_1d refl lat lon lb nb).2.2.length ≤ lon.length
      ∧ (∀ row ∈ (crop_box_1d refl lat lon lb nb).1, row.length ≤ lon.length))
    ∧ ((crop_box_2d refl₂ lat₂ lon₂ lb₂ nb₂).1.length
        = (crop_box_2d refl₂ lat₂ lon₂ lb₂ nb₂).2.1.length
      ∧ (crop_box_2d refl₂ lat₂ lon₂ lb₂ nb₂).2.1.length
        = (crop_box_2d refl₂ lat₂ lon₂ lb₂ nb₂).2.2.length
      ∧ (crop_box_2d refl₂ lat₂ lon₂ lb₂ nb₂).1.length ≤ gridSize refl₂)
    ∧ ((crop_region data lats lons clat clon r).1.length
        = (crop_region data lats lons clat clon r).2.1.length
      ∧ (crop_region data lats lons clat clon r).2.1.length
        = (crop_region data lats lons clat clon r).2.2.length
      ∧ (crop_region data lats lons clat clon r).1.length ≤ data.length
      ∧ ∃ k, k ≤ ncols
          ∧ (∀ row ∈ (crop_region data lats lons clat clon r).1, row.length = k)
          ∧ (∀ row ∈ (crop_region data lats lons clat clon r).2.1, row.length = k)
          ∧ (∀ row ∈ (crop_region data lats lons clat clon r).2.2,
              row.length = k)) := by
  refine ⟨⟨?_, ?_, ?_, ?_, ?_, ?_⟩, ⟨?_, ?_, ?_⟩, ⟨?_, ?_, ?_, ?_⟩⟩
  · simp only [crop_box_1d, List.length_map]
    rw [maskFilter_length, maskFilter_length, h1a]
  · intro row hrow
    simp only [crop_box_1d] at hrow ⊢
    rcases List.mem_map.mp hrow with ⟨rr, hrm, rfl⟩
    rw [maskFilter_length, maskFilter_length, h1b rr (mem_of_mem_maskFilter hrm)]
  · simp only [crop_box_1d, List.length_map]
    exact maskFilter_length_le _ _
  · simp only [crop_box_1d]
    exact maskFilter_length_le _ _
  · simp only [crop_box_1d]
    exact maskFilter_length_le _ _
  · intro row hrow
    simp only [crop_box_1d] at hrow
    rcases List.mem_map.mp hrow with ⟨rr, hrm, rfl⟩
    have h := maskFilter_length_le (lon.map (fun x =>
      decide (nb.1 ≤ x) && decide (x ≤ nb.2))) rr
    rw [h1b rr (mem_of_mem_maskFilter hrm)] at h
    exact h
  · simp only [crop_box_2d]
    exact select2d_length_eq _ refl₂ lat₂ h2a h2c
  · simp only [crop_box_2d]
    exact select2d_length_eq _ lat₂ lon₂ h2b h2d
  · simp only [crop_box_2d]
    exact select2d_length_le _ refl₂
  · simp only [crop_region, List.length_map]
    rw [maskFilter_length, maskFilter_length, h3a]
  · simp only [crop_region, List.length_map]
    rw [maskFilter_length, maskFilter_length, h3b]
  · simp only [crop_region, List.length_map]
    exact maskFilter_length_le _ _
  · refine ⟨(((lons.headD []).map (fun x =>
      decide (pymod clon 360000000 - r ≤ x)
        && decide (x ≤ pymod clon 360000000 + r))).take ncols).count true,
      ?_, ?_, ?_, ?_⟩
    · exact le_trans (List.count_le_length _ _)
        (le_trans (Nat.le_of_eq (List.length_take _ _)) (Nat.min_le_left _ _))
    · intro row hrow
      simp only [crop_region] at hrow
      rcases List.mem_map.mp hrow with ⟨rr, hrm, rfl⟩
      rw [maskFilter_length, h3c rr (mem_of_mem_maskFilter hrm)]
    · intro row hrow
      simp only [crop_region] at hrow
      rcases List.mem_map.mp hrow with ⟨rr, hrm, rfl⟩
      rw [maskFilter_length, h3d rr (mem_of_mem_maskFilter hrm)]
    · intro row hrow
      simp only [crop_region] at hrow
      rcases List.mem_map.mp hrow with ⟨row₁, hrow₁, rfl⟩
      rcases List.mem_map.mp hrow₁ with ⟨rr, hrm, rfl⟩
      rw [List.length_map, maskFilter_length,
        h3e rr (mem_of_mem_maskFilter hrm)]

/-- C8 witness: the amended shape facts evaluated on concrete one-cell
grids. -/
theorem crop_shapes_match_witness :
    (∀ row ∈ [[some (1:Int)]], row.length = [(0:Int)].length)
    ∧ (crop_box_1d [[some 1]] [0] [0] (0, 0) (0, 0)).1.length
        = (crop_box_1d [[some 1]] [0] [0] (0, 0) (0, 0)).2.1.length
    ∧ (crop_region [[some 1]] [[0]] [[0]] 0 0 0).1.length
        = (crop_region [[some 1]] [[0]] [[0]] 0 0 0).2.1.length := by
  have h := crop_shapes_match [[some 1]] [0] [0] (0, 0) (0, 0)
    [[some 1]] [[0]] [[0]] (0, 0) (0, 0)
    [[some 1]] [[0]] [[0]] 0 0 0 1
    (by decide) (by decide) (by decide) (by decide) (by decide) (by decide)
    (by decide) (by decide) (by decide) (by decide) (by decide)
  exact ⟨by decide, h.1.1, h.2.2.1⟩

/-- C3: when a crop region lies entirely outside the grid coverage (every
latitude sample outside the latitude window, or every longitude sample
outside the longitude window), the crop step of both pipelines yields a
zero-size cropped array, and the pipelines complete without an unhandled
exception escaping their entry points: the generic process_grib2_file
converts any exception raised in its body into a False return value, and the
MRMS main path runs the total crop and hands the zero-size grid to the
renderer, which (modelled from the spec, the plotting library being an
excluded collaborator required to handle an empty grid) returns normally
with a rendered shape of zero cells. -/
theorem pipeline_empty_crop_safe
    (gz : Bool)
    (refl : List (List (Option Int))) (lat lon : List Int) (lb nb : Int × Int)
    (data : List (List (Option Int))) (lats lons : List (List Int))
    (clat clon r : Int)
    (hbox : (∀ x ∈ lat, ¬ (lb.1 ≤ x ∧ x ≤ lb.2))
            ∨ (∀ x ∈ lon, ¬ (nb.1 ≤ x ∧ x ≤ nb.2)))
    (hmrms : (∀ x ∈ lats.map (fun row => row.headD 0),
                ¬ (clat - r ≤ x ∧ x ≤ clat + r))
             ∨ (∀ x ∈ lons.headD [],
                ¬ (pymod clon 360000000 - r ≤ x
                    ∧ x ≤ pymod clon 360000000 + r))) :
    (process_grib2_file_run ⟨gz, true⟩).1 = false
    ∧ gridSize (crop_box_1d refl lat lon lb nb).1 = 0
    ∧ gridSize (crop_region data lats lons clat clon r).1 = 0
    ∧ (mrms_main data lats lons clat clon r).1
        * (mrms_main data lats lons clat clon r).2 = 0 := by
  have hfalse : ∀ {α : Type} (p q : α → Prop) [DecidablePred p] [DecidablePred q]
      (xs : List α), (∀ x ∈ xs, ¬ (p x ∧ q x)) →
      ∀ b ∈ xs.map (fun x => decide (p x) && decide (q x)), b = false := by
    intro α p q _ _ xs hall b hb
    rcases List.mem_map.mp hb with ⟨x, hx, rfl⟩
    have := hall x hx
    rcases not_and_or.mp this with h | h
    · simp [decide_eq_false h]
    · simp [decide_eq_false h]
  refine ⟨rfl, ?_, ?_, ?_⟩
  · rcases hbox with h | h
    · have hmask := hfalse _ _ lat h
      simp only [crop_box_1d]
      rw [maskFilter_eq_nil_of_all_false hmask]
      rfl
    · have hmask := hfalse _ _ lon h
      simp only [crop_box_1d]
      apply gridSize_eq_zero_of_rows_nil
      intro row hrow
      rcases List.mem_map.mp hrow with ⟨rr, hrm, rfl⟩
      exact maskFilter_eq_nil_of_all_false hmask
  · rcases hmrms with h | h
    · have hmask := hfalse _ _ (lats.map (fun row => row.headD 0)) h
      simp only [crop_region]
      rw [maskFilter_eq_nil_of_all_false (by simpa [List.map_map] using hmask)]
      rfl
    · have hmask := hfalse _ _ (lons.headD []) h
      simp only [crop_region]
      apply gridSize_eq_zero_of_rows_nil
      intro row hrow
      rcases List.mem_map.mp hrow with ⟨rr, hrm, rfl⟩
      exact maskFilter_eq_nil_of_all_false hmask
  · rcases hmrms with h | h
    · have hmask := hfalse _ _ (lats.map (fun row => row.headD 0)) h
      simp only [mrms_main, plot_mrms_shape, crop_region]
      rw [maskFilter_eq_nil_of_all_false (by simpa [List.map_map] using hmask)]
      rfl
    · have hmask := hfalse _ _ (lons.headD []) h
      have hrows : ∀ row ∈ (crop_region data lats lons clat clon r).1,
          row = [] := by
        intro row hrow
        simp only [crop_region] at hrow
        rcases List.mem_map.mp hrow with ⟨rr, hrm, rfl⟩
        exact maskFilter_eq_nil_of_all_false hmask
      simp only [mrms_main, plot_mrms_shape]
      cases hc : (crop_region data lats lons clat clon r).1 with
      | nil => simp
      | cons x t =>
        have hx : x = [] := hrows x (by rw [hc]; exact List.mem_cons_self x t)
        simp [hx]

/-- C3 witness: a one-cell grid with the crop window entirely north of the
single latitude sample. -/
theorem pipeline_empty_crop_safe_witness :
    (∀ x ∈ ([0] : List Int), ¬ ((10000000:Int) ≤ x ∧ x ≤ 20000000))
    ∧ (process_grib2_file_run ⟨true, true⟩).1 = false
    ∧ gridSize (crop_box_1d [[some 1]] [0] [0] (10000000, 20000000) (0, 0)).1 = 0
    ∧ gridSize (crop_region [[some 1]] [[0]] [[0]] 50000000 0 1000000).1 = 0
    ∧ (mrms_main [[some 1]] [[0]] [[0]] 50000000 0 1000000).1
        * (mrms_main [[some 1]] [[0]] [[0]] 50000000 0 1000000).2 = 0 :=
  ⟨by decide,
   pipeline_empty_crop_safe true [[some 1]] [0] [0] (10000000, 20000000) (0, 0)
     [[some 1]] [[0]] [[0]] 50000000 0 1000000
     (Or.inl (by decide)) (Or.inl (by decide))⟩

end LargeEventDashboard
